import Mathlib

/-!
Verification of the eBay inventory client (`ebay_inventory.py`).

The program is two functions over an HTTP transport:

* `get_stock item_id` issues a GET to the inventory endpoint and, on
  status 200, returns the JSON-decoded response body; on any other
  status it raises an exception whose message embeds the raw body text.
* `update_stock item_id quantity` issues a PUT whose JSON body nests the
  quantity under availability.ship_to_location_availability.quantity; on
  status 200 or 204 it prints an acknowledgment and returns no data,
  otherwise it raises an exception embedding the raw body text.

The embedding passes the HTTP layer in explicitly as a function from the
outgoing request to either a transport-level error string (an exception
raised by the requests library) or a `Response`. A `Response` carries
the status code, the raw body text, and the result of JSON-decoding the
body (`none` when the body is not well-formed JSON, in which case the
decode attempt raises). Python exceptions surface as the `PyError` sum:
`exc` is an exception raised by the client code itself, while
`jsonDecodeError` and `transportError` are exceptions from the layers
below, carried through verbatim because the client has no try/except.
-/

namespace EbayInventory

/-- A Python/JSON value, as handled by `response.json()` and the
`json=data` argument of `requests.put`. -/
inductive Json where
  | null : Json
  | bool (b : Bool) : Json
  | num (n : Int) : Json
  | str (s : String) : Json
  | arr (items : List Json) : Json
  | obj (fields : List (String × Json)) : Json

/-- Field lookup in a JSON object; `none` on non-objects or missing keys. -/
def Json.lookup : Json → String → Option Json
  | .obj fields, key => List.lookup key fields
  | _, _ => none

/-- An HTTP response as observed by the client: `status_code` and `text`
match the attributes of the same names on a requests response object;
`jsonBody` is the outcome of `response.json()` (`none` when the body is
not well-formed JSON, so that calling it raises). -/
structure Response where
  status_code : Nat
  text : String
  jsonBody : Option Json

/-- An exception escaping from `get_stock` or `update_stock`:
`exc` is raised by the client code itself (`raise Exception(...)`),
`jsonDecodeError` is raised by `response.json()` on a malformed body,
`transportError` is raised by the requests library below the client.
The latter two carry their payload verbatim: the client never catches,
wraps, translates, or retries them. -/
inductive PyError where
  | exc (msg : String) : PyError
  | jsonDecodeError (bodyText : String) : PyError
  | transportError (e : String) : PyError
deriving DecidableEq, Repr

/-- An outgoing HTTP request, as handed to `requests.get` / `requests.put`:
the method, the target URL, the header dictionary, and the optional JSON
body (the `json=data` keyword argument). -/
structure Request where
  method : String
  url : String
  headers : List (String × String)
  jsonData : Option Json

/-- The process-wide credential constant `ACCESS_TOKEN`. -/
def ACCESS_TOKEN : String := "YOUR_EBAY_ACCESS_TOKEN"

/-- The request built by `get_stock`: the f-string URL concatenating the
fixed base with the item identifier, and the literal headers dictionary. -/
def get_stock_request (item_id : String) : Request :=
  { method := "GET"
  , url := "https://api.ebay.com/sell/inventory/v1/inventory_item/" ++ item_id
  , headers :=
      [ ("Authorization", "Bearer " ++ ACCESS_TOKEN)
      , ("Content-Type", "application/json") ]
  , jsonData := none }

/-- `get_stock(item_id)`. The transport argument stands for the HTTP
layer: it maps the outgoing request to either a raised transport
exception (left alone by the client) or a response. On status 200 the
decoded body is returned as-is; a decode failure there propagates; any
other status raises an Exception embedding the raw body text. -/
def get_stock (item_id : String)
    (transport : Request → Except String Response) : Except PyError Json :=
  match transport (get_stock_request item_id) with
  | .error e => .error (.transportError e)
  | .ok response =>
    if response.status_code = 200 then
      match response.jsonBody with
      | some stockData => .ok stockData
      | none => .error (.jsonDecodeError response.text)
    else
      .error (.exc ("Error fetching stock: " ++ response.text))

/-- The request built by `update_stock`: same URL scheme and headers as
the reader, with the PUT body nesting the quantity under
availability.ship_to_location_availability.quantity. -/
def update_stock_request (item_id : String) (quantity : Json) : Request :=
  { method := "PUT"
  , url := "https://api.ebay.com/sell/inventory/v1/inventory_item/" ++ item_id
  , headers :=
      [ ("Authorization", "Bearer " ++ ACCESS_TOKEN)
      , ("Content-Type", "application/json") ]
  , jsonData := some (Json.obj
      [ ("availability", Json.obj
          [ ("ship_to_location_availability", Json.obj
              [ ("quantity", quantity) ]) ]) ]) }

/-- `update_stock(item_id, quantity)`. On status 200 or 204 the function
prints the acknowledgment and returns None: the success payload here is
the list of lines printed to stdout, and carries no data from the
response. Any other status raises an Exception embedding the raw body
text; a transport exception propagates verbatim. -/
def update_stock (item_id : String) (quantity : Json)
    (transport : Request → Except String Response) :
    Except PyError (List String) :=
  match transport (update_stock_request item_id quantity) with
  | .error e => .error (.transportError e)
  | .ok response =>
    if response.status_code = 200 ∨ response.status_code = 204 then
      .ok ["Stock updated successfully!"]
    else
      .error (.exc ("Error updating stock: " ++ response.text))

/-- C1: for every item identifier, every success body B and every
transport whose response to the read request has status 200 with decoded
body B, `get_stock` returns exactly B, unmodified and with no shape
validation (B ranges over all JSON values, of any shape). -/
theorem get_stock_returns_success_body_unmodified
    (item_id text : String) (B : Json)
    (transport : Request → Except String Response)
    (h : transport (get_stock_request item_id) =
      .ok { status_code := 200, text := text, jsonBody := some B }) :
    get_stock item_id transport = .ok B := by
  unfold get_stock
  rw [h]
  simp

/-- Witness for C1: the concrete scenario of reading TEST123 when the
service answers 200 with a structured body returns that exact body. -/
theorem get_stock_returns_success_body_unmodified_witness :
    get_stock "TEST123"
      (fun _ => .ok { status_code := 200, text := ""
                    , jsonBody := some (Json.obj [("sku", Json.str "TEST123")]) })
      = .ok (Json.obj [("sku", Json.str "TEST123")]) :=
  get_stock_returns_success_body_unmodified "TEST123" ""
    (Json.obj [("sku", Json.str "TEST123")]) _ rfl

/-- C2: for every status other than 200, `get_stock` fails, the failure
is always of the single kind `PyError.exc` (not categorized by status),
and its message contains the literal response body text. -/
theorem get_stock_non_200_raises_with_body_text
    (item_id text : String) (s : Nat) (body : Option Json)
    (transport : Request → Except String Response)
    (h : transport (get_stock_request item_id) =
      .ok { status_code := s, text := text, jsonBody := body })
    (hs : s ≠ 200) :
    ∃ msg, get_stock item_id transport = .error (.exc msg) ∧
      ∃ before after, msg = before ++ text ++ after := by
  refine ⟨"Error fetching stock: " ++ text, ?_, "Error fetching stock: ", "", ?_⟩
  · unfold get_stock
    rw [h]
    simp [hs]
  · simp

/-- Witness for C2: the concrete 404 scenario fails with a message
containing the body text "Item not found". -/
theorem get_stock_non_200_raises_with_body_text_witness :
    ∃ msg,
      get_stock "NONEXISTENT"
        (fun _ => .ok { status_code := 404, text := "Item not found"
                      , jsonBody := none })
        = .error (.exc msg) ∧
      ∃ before after, msg = before ++ "Item not found" ++ after :=
  get_stock_non_200_raises_with_body_text "NONEXISTENT" "Item not found"
    404 none _ rfl (by decide)

/-- C3: for every item identifier and every quantity value q, the
outgoing PUT body is exactly the document nesting q under
availability.ship_to_location_availability.quantity, and looking q up
along that path recovers it unchanged. -/
theorem update_stock_body_places_quantity_at_path
    (item_id : String) (q : Json) :
    (update_stock_request item_id q).jsonData = some (Json.obj
      [ ("availability", Json.obj
          [ ("ship_to_location_availability", Json.obj
              [ ("quantity", q) ]) ]) ]) ∧
    ((update_stock_request item_id q).jsonData.bind fun d =>
      (d.lookup "availability").bind fun a =>
        (a.lookup "ship_to_location_availability").bind fun sh =>
          sh.lookup "quantity") = some q := by
  constructor
  · rfl
  · simp [update_stock_request, Json.lookup]

/-- C4: `update_stock` reports success (the acknowledgment, and no data
from the response) exactly when the status is 200 or 204, and for every
other status it fails with a message containing the literal body text. -/
theorem update_stock_success_iff_200_or_204
    (item_id text : String) (q : Json) (s : Nat) (body : Option Json)
    (transport : Request → Except String Response)
    (h : transport (update_stock_request item_id q) =
      .ok { status_code := s, text := text, jsonBody := body }) :
    (update_stock item_id q transport = .ok ["Stock updated successfully!"]
      ↔ (s = 200 ∨ s = 204)) ∧
    (¬(s = 200 ∨ s = 204) →
      ∃ msg, update_stock item_id q transport = .error (.exc msg) ∧
        ∃ before after, msg = before ++ text ++ after) := by
  unfold update_stock
  rw [h]
  constructor
  · constructor
    · intro hok
      by_contra hno
      simp [hno] at hok
    · intro hyes
      simp [hyes]
  · intro hno
    refine ⟨"Error updating stock: " ++ text, ?_, "Error updating stock: ", "", ?_⟩
    · simp [hno]
    · simp

/-- Witness for C4: the concrete 204 write scenario reports success. -/
theorem update_stock_success_iff_200_or_204_witness :
    (update_stock "TEST123" (Json.num 30)
        (fun _ => .ok { status_code := 204, text := "", jsonBody := none })
        = .ok ["Stock updated successfully!"] ↔ (204 = 200 ∨ 204 = 204)) ∧
    (¬((204 : Nat) = 200 ∨ (204 : Nat) = 204) →
      ∃ msg, update_stock "TEST123" (Json.num 30)
          (fun _ => .ok { status_code := 204, text := "", jsonBody := none })
          = .error (.exc msg) ∧
        ∃ before after, msg = before ++ "" ++ after) :=
  update_stock_success_iff_200_or_204 "TEST123" "" (Json.num 30) 204 none _ rfl

/-- C5: every outgoing request of either operation carries exactly the
headers Authorization Bearer ACCESS_TOKEN (the configured process
credential) and Content-Type application/json. -/
theorem requests_carry_bearer_and_content_type
    (item_id : String) (q : Json) :
    (get_stock_request item_id).headers =
      [ ("Authorization", "Bearer " ++ ACCESS_TOKEN)
      , ("Content-Type", "application/json") ] ∧
    (update_stock_request item_id q).headers =
      [ ("Authorization", "Bearer " ++ ACCESS_TOKEN)
      , ("Content-Type", "application/json") ] := by
  exact ⟨rfl, rfl⟩

/-- C6: both operations address base/inventory_item/item_id by plain
string concatenation of the fixed base with the literal identifier (no
validation, normalization or encoding of the identifier), the read uses
GET and the write uses PUT, and for the same identifier the two URLs are
equal. -/
theorem request_urls_concatenate_identifier
    (item_id : String) (q : Json) :
    (get_stock_request item_id).url =
      "https://api.ebay.com/sell/inventory/v1/inventory_item/" ++ item_id ∧
    (update_stock_request item_id q).url =
      "https://api.ebay.com/sell/inventory/v1/inventory_item/" ++ item_id ∧
    (get_stock_request item_id).method = "GET" ∧
    (update_stock_request item_id q).method = "PUT" ∧
    (get_stock_request item_id).url = (update_stock_request item_id q).url := by
  exact ⟨rfl, rfl, rfl, rfl, rfl⟩

/-- C7 counterexample: the failure value does NOT hold the response
status code. A 404 and a 500 with the same body text produce literally
identical failure values (for the read and for the write), so no caller
can branch on status-code ranges from the failure value: it holds only
the message embedding the body text. -/
theorem failure_value_does_not_hold_status_code :
    get_stock "ITEM"
        (fun _ => .ok { status_code := 404, text := "oops", jsonBody := none })
      = get_stock "ITEM"
        (fun _ => .ok { status_code := 500, text := "oops", jsonBody := none }) ∧
    get_stock "ITEM"
        (fun _ => .ok { status_code := 404, text := "oops", jsonBody := none })
      = .error (.exc "Error fetching stock: oops") ∧
    update_stock "ITEM" (Json.num 1)
        (fun _ => .ok { status_code := 404, text := "oops", jsonBody := none })
      = update_stock "ITEM" (Json.num 1)
        (fun _ => .ok { status_code := 500, text := "oops", jsonBody := none }) := by
  exact ⟨rfl, rfl, rfl⟩

/-- C7 amended: the failure outcome of either operation is a value
holding the raw response body text (embedded in its message); it is
fully determined by that body text and does not hold the status code
(any two non-success statuses with the same body text yield equal
failure values). -/
theorem failure_value_holds_body_text_not_status
    (item_id tg tw : String) (sg sg2 sw sw2 : Nat)
    (bg bg2 bw bw2 : Option Json) (q : Json)
    (hg : sg ≠ 200) (hg2 : sg2 ≠ 200)
    (hw : ¬(sw = 200 ∨ sw = 204)) (hw2 : ¬(sw2 = 200 ∨ sw2 = 204)) :
    get_stock item_id (fun _ => .ok { status_code := sg, text := tg, jsonBody := bg })
      = .error (.exc ("Error fetching stock: " ++ tg)) ∧
    get_stock item_id (fun _ => .ok { status_code := sg, text := tg, jsonBody := bg })
      = get_stock item_id
          (fun _ => .ok { status_code := sg2, text := tg, jsonBody := bg2 }) ∧
    update_stock item_id q
        (fun _ => .ok { status_code := sw, text := tw, jsonBody := bw })
      = .error (.exc ("Error updating stock: " ++ tw)) ∧
    update_stock item_id q
        (fun _ => .ok { status_code := sw, text := tw, jsonBody := bw })
      = update_stock item_id q
          (fun _ => .ok { status_code := sw2, text := tw, jsonBody := bw2 }) := by
  refine ⟨?_, ?_, ?_, ?_⟩ <;> simp [get_stock, update_stock, hg, hg2, hw, hw2]

/-- Witness for the amended C7: concrete 404 versus 500 reads and 409
versus 500 writes with fixed body texts. -/
theorem failure_value_holds_body_text_not_status_witness :
    get_stock "ITEM"
        (fun _ => .ok { status_code := 404, text := "a", jsonBody := none })
      = .error (.exc ("Error fetching stock: " ++ "a")) ∧
    get_stock "ITEM"
        (fun _ => .ok { status_code := 404, text := "a", jsonBody := none })
      = get_stock "ITEM"
          (fun _ => .ok { status_code := 500, text := "a", jsonBody := none }) ∧
    update_stock "ITEM" (Json.num 1)
        (fun _ => .ok { status_code := 409, text := "b", jsonBody := none })
      = .error (.exc ("Error updating stock: " ++ "b")) ∧
    update_stock "ITEM" (Json.num 1)
        (fun _ => .ok { status_code := 409, text := "b", jsonBody := none })
      = update_stock "ITEM" (Json.num 1)
          (fun _ => .ok { status_code := 500, text := "b", jsonBody := none }) :=
  failure_value_holds_body_text_not_status "ITEM" "a" "b" 404 500 409 500
    none none none none (Json.num 1) (by decide) (by decide) (by decide) (by decide)

/-- C8: lower-level failures propagate unchanged through both
operations: a transport-level exception raised while issuing the read or
the write surfaces verbatim (never caught, wrapped, translated or
retried), and a decode failure on a 200 read body surfaces as the
decoder's own error carrying the raw body. -/
theorem lower_level_failures_propagate_unchanged
    (item_id text e ew : String) (q : Json)
    (tg tw td : Request → Except String Response)
    (hg : tg (get_stock_request item_id) = .error e)
    (hw : tw (update_stock_request item_id q) = .error ew)
    (hd : td (get_stock_request item_id) =
      .ok { status_code := 200, text := text, jsonBody := none }) :
    get_stock item_id tg = .error (.transportError e) ∧
    update_stock item_id q tw = .error (.transportError ew) ∧
    get_stock item_id td = .error (.jsonDecodeError text) := by
  refine ⟨?_, ?_, ?_⟩
  · unfold get_stock; rw [hg]
  · unfold update_stock; rw [hw]
  · unfold get_stock; rw [hd]; simp

/-- Witness for C8: a concrete connection failure on read and write,
and a concrete malformed 200 body on read, each propagating. -/
theorem lower_level_failures_propagate_unchanged_witness :
    get_stock "X" (fun _ => .error "ConnectionError")
      = .error (.transportError "ConnectionError") ∧
    update_stock "X" (Json.num 5) (fun _ => .error "Timeout")
      = .error (.transportError "Timeout") ∧
    get_stock "X"
        (fun _ => .ok { status_code := 200, text := "not json", jsonBody := none })
      = .error (.jsonDecodeError "not json") :=
  lower_level_failures_propagate_unchanged "X" "not json" "ConnectionError"
    "Timeout" (Json.num 5) _ _ _ rfl rfl rfl

/-- C9: on every non-success status the reader raises a message that is
exactly the fixed tag Error fetching stock followed by the body text,
the writer raises the fixed tag Error updating stock followed by the
body text, and no reader failure message can equal a writer failure
message, so the two operations produce distinguishable failures. -/
theorem operation_failures_are_distinguishable
    (item_id tg tw : String) (sg sw : Nat) (bg bw : Option Json) (q : Json)
    (hg : sg ≠ 200) (hw : ¬(sw = 200 ∨ sw = 204)) :
    get_stock item_id (fun _ => .ok { status_code := sg, text := tg, jsonBody := bg })
      = .error (.exc ("Error fetching stock: " ++ tg)) ∧
    update_stock item_id q
        (fun _ => .ok { status_code := sw, text := tw, jsonBody := bw })
      = .error (.exc ("Error updating stock: " ++ tw)) ∧
    ∀ a b : String, "Error fetching stock: " ++ a ≠ "Error updating stock: " ++ b := by
  refine ⟨?_, ?_, ?_⟩
  · simp [get_stock, hg]
  · simp [update_stock, hw]
  · intro a b hab
    have hd := congrArg String.data hab
    rw [String.data_append, String.data_append] at hd
    have hlf : ("Error fetching stock: " : String).data.length = 22 := by decide
    have hlu : ("Error updating stock: " : String).data.length = 22 := by decide
    have ht := congrArg (List.take 22) hd
    rw [List.take_left' hlf, List.take_left' hlu] at ht
    exact absurd ht (by decide)

/-- Witness for C9: concrete 404 read and 409 write failures carry their
respective operation tags. -/
theorem operation_failures_are_distinguishable_witness :
    get_stock "A"
        (fun _ => .ok { status_code := 404, text := "nf", jsonBody := none })
      = .error (.exc ("Error fetching stock: " ++ "nf")) ∧
    update_stock "A" (Json.num 10)
        (fun _ => .ok { status_code := 409, text := "cf", jsonBody := none })
      = .error (.exc ("Error updating stock: " ++ "cf")) ∧
    ∀ a b : String, "Error fetching stock: " ++ a ≠ "Error updating stock: " ++ b :=
  operation_failures_are_distinguishable "A" "nf" "cf" 404 409 none none
    (Json.num 10) (by decide) (by decide)

/-- C10: on a non-200 read response the result never depends on whether
the body decodes (it equals the result on an undecodable body, and is
the Exception on the raw text, never a decode error), and a decode
failure can only arise when the status is exactly 200. -/
theorem get_stock_decodes_only_on_200
    (item_id text : String) (s : Nat) (body : Option Json)
    (hs : s ≠ 200) :
    get_stock item_id (fun _ => .ok { status_code := s, text := text, jsonBody := body })
      = get_stock item_id
          (fun _ => .ok { status_code := s, text := text, jsonBody := none }) ∧
    get_stock item_id (fun _ => .ok { status_code := s, text := text, jsonBody := body })
      = .error (.exc ("Error fetching stock: " ++ text)) ∧
    ∀ (s2 : Nat) (t2 d : String) (b2 : Option Json),
      get_stock item_id (fun _ => .ok { status_code := s2, text := t2, jsonBody := b2 })
        = .error (.jsonDecodeError d) → s2 = 200 := by
  refine ⟨?_, ?_, ?_⟩
  · simp [get_stock, hs]
  · simp [get_stock, hs]
  · intro s2 t2 d b2 h2
    by_contra hne
    simp [get_stock, hne] at h2

/-- Witness for C10: a 404 response whose body would not decode still
produces the plain fetch Exception, not a decode error. -/
theorem get_stock_decodes_only_on_200_witness :
    get_stock "A"
        (fun _ => .ok { status_code := 404, text := "bad", jsonBody := none })
      = get_stock "A"
          (fun _ => .ok { status_code := 404, text := "bad", jsonBody := none }) ∧
    get_stock "A"
        (fun _ => .ok { status_code := 404, text := "bad", jsonBody := none })
      = .error (.exc ("Error fetching stock: " ++ "bad")) ∧
    ∀ (s2 : Nat) (t2 d : String) (b2 : Option Json),
      get_stock "A" (fun _ => .ok { status_code := s2, text := t2, jsonBody := b2 })
        = .error (.jsonDecodeError d) → s2 = 200 :=
  get_stock_decodes_only_on_200 "A" "bad" 404 none (by decide)

end EbayInventory
